import Mathlib

/-!
# MsvcLibX `include/stdlib.h`: temporary files and full paths

The only source file of this unit is the header `C/MsvcLibX/include/stdlib.h`.
Its logic is conditional compilation: which functions it declares and which
names it redirects with `#define`, depending on the macros that are defined
when it is read.

Part 1 embeds the header itself: every line of the header body is one
`Line` of `stdlib_h`, and `preprocess` is the C preprocessor restricted to
the directives the header uses (`#ifdef`, `#ifndef`, `#if defined`, `#else`,
`#endif`, `#define`, `#include`).

Part 2 models the functions the header only declares (`mkstempM`, `mkstempA`,
`mkstempU`, `_fullpathU`); their bodies are not in this header, so they are
modelled from the specification and marked as such.
-/

namespace MsvcLibX

/-! ## Part 1: the header and the preprocessor -/

/-- One parameter of a declared function: its C type and its name. -/
structure Param where
  ty : String
  name : String
  deriving DecidableEq, Repr

/-- An `extern` function declaration of the header, with the comment that
stands on its line. -/
structure Decl where
  ret : String
  name : String
  params : List Param
  note : String
  deriving DecidableEq, Repr

/-- The lines of the header, by kind. -/
inductive Line where
  /-- The directive `#ifdef M`. -/
  | ifdef (m : String)
  /-- The directive `#ifndef M`. -/
  | ifndef (m : String)
  /-- The directive `#if defined(M)`. -/
  | ifDefined (m : String)
  /-- The directive `#else`. -/
  | else_
  /-- The directive `#endif`. -/
  | endif
  /-- The directive `#define NAME BODY`, with the comment on the line. -/
  | define (name : String) (body : String) (note : String)
  /-- The directive `#include FILE`. -/
  | incl (file : String)
  /-- A function declaration. -/
  | decl (d : Decl)
  /-- Any other line of C text (the linkage braces). -/
  | text (s : String)
  deriving DecidableEq, Repr

/-- The header `C/MsvcLibX/include/stdlib.h`, line by line (comment-only and
blank lines left out). -/
def stdlib_h : List Line :=
  [ Line.ifndef "_MSVCLIBX_stdlib_H",
    Line.define "_MSVCLIBX_stdlib_H" "1" "",
    Line.incl "\"msvclibx.h\"",
    Line.incl "UCRT_INCLUDE_FILE(stdlib.h)",
    Line.ifdef "__cplusplus",
    Line.text "extern \"C\" \x7b",
    Line.endif,
    -- MS-DOS-specific definitions
    Line.ifdef "_MSDOS",
    Line.decl ⟨"int", "mkstemp", [⟨"char *", "pszName"⟩], "Create a temporary file"⟩,
    Line.endif,
    -- Win32-specific definitions
    Line.ifdef "_WIN32",
    Line.decl ⟨"char *", "_fullpathU",
      [⟨"char *", "absPath"⟩, ⟨"const char *", "relPath"⟩, ⟨"size_t", "maxLength"⟩], ""⟩,
    Line.ifDefined "_UTF8_SOURCE",
    Line.define "_fullpath" "_fullpathU" "For processing UTF-8 pathnames",
    Line.endif,
    Line.decl ⟨"int", "mkstempM", [⟨"char *", "pszName"⟩, ⟨"UINT", "cp"⟩], "Multi-encoding version"⟩,
    Line.decl ⟨"int", "mkstempA", [⟨"char *", "pszName"⟩], "ANSI version"⟩,
    Line.decl ⟨"int", "mkstempU", [⟨"char *", "pszName"⟩], "UTF-8 version"⟩,
    Line.ifDefined "_UTF8_SOURCE",
    Line.define "mkstemp" "mkstempU" "For processing UTF-8 pathnames",
    Line.else_,
    Line.define "mkstemp" "mkstempA" "For processing UTF-8 pathnames",
    Line.endif,
    Line.endif,
    -- End of OS-specific definitions
    Line.ifdef "__cplusplus",
    Line.text "\x7d",
    Line.endif,
    Line.endif ]

/-- An object-like preprocessor definition: name, replacement text, comment. -/
structure Def where
  name : String
  body : String
  note : String
  deriving DecidableEq, Repr

/-- One open conditional: whether the enclosing text was live, and whether
the current branch is live. -/
structure Cond where
  outer : Bool
  live : Bool
  deriving DecidableEq, Repr

/-- The preprocessor's state while it reads a file. `table` is the whole
definition table (most recent first); `defines`, `decls`, `includes` and
`texts` are what the file itself has contributed so far, in order. -/
structure PP where
  table : List Def
  conds : List Cond
  defines : List Def
  decls : List Decl
  includes : List String
  texts : List String
  deriving DecidableEq, Repr

/-- A name is defined when the table has an entry for it. -/
def PP.isDefined (s : PP) (m : String) : Bool :=
  s.table.any (fun d => d.name == m)

/-- The text is live when every open conditional is on a live branch. -/
def PP.live (s : PP) : Bool :=
  match s.conds with
  | [] => true
  | c :: _ => c.live

/-- Open a conditional whose test gave `b`. -/
def PP.push (s : PP) (b : Bool) : PP :=
  { s with conds := ⟨s.live, s.live && b⟩ :: s.conds }

/-- The preprocessor reads one line. -/
def step (s : PP) : Line → PP
  | .ifdef m => s.push (s.isDefined m)
  | .ifndef m => s.push (!s.isDefined m)
  | .ifDefined m => s.push (s.isDefined m)
  | .else_ =>
    match s.conds with
    | [] => s
    | c :: rest => { s with conds := ⟨c.outer, c.outer && !c.live⟩ :: rest }
  | .endif => { s with conds := s.conds.tail }
  | .define n b c =>
    if s.live then
      { s with table := ⟨n, b, c⟩ :: s.table, defines := s.defines ++ [⟨n, b, c⟩] }
    else s
  | .incl f => if s.live then { s with includes := s.includes ++ [f] } else s
  | .decl d => if s.live then { s with decls := s.decls ++ [d] } else s
  | .text t => if s.live then { s with texts := s.texts ++ [t] } else s

/-- The preprocessor reads a file. -/
def preprocess (s : PP) (ls : List Line) : PP :=
  ls.foldl step s

/-- A build configuration: which of the macros the header tests are defined
when it is read for the first time. `_MSDOS` and `_WIN32` are set by the
compiler for the target, `__cplusplus` by the language, `_UTF8_SOURCE` by the
build. The two files the header includes are not part of this unit and are
not expanded; the configuration is the state of these four macros as the
header's own conditionals find it. -/
structure BuildConfig where
  _MSDOS : Bool
  _WIN32 : Bool
  _UTF8_SOURCE : Bool
  __cplusplus : Bool
  deriving DecidableEq, Repr

/-- The definition table of a configuration before the header is read. -/
def BuildConfig.table (c : BuildConfig) : List Def :=
  (if c._MSDOS then [⟨"_MSDOS", "1", ""⟩] else []) ++
  (if c._WIN32 then [⟨"_WIN32", "1", ""⟩] else []) ++
  (if c._UTF8_SOURCE then [⟨"_UTF8_SOURCE", "1", ""⟩] else []) ++
  (if c.__cplusplus then [⟨"__cplusplus", "1", ""⟩] else [])

/-- The state before the first line. -/
def BuildConfig.start (c : BuildConfig) : PP :=
  { table := c.table, conds := [], defines := [], decls := [], includes := [], texts := [] }

/-- The header read under a configuration. -/
def header (c : BuildConfig) : PP :=
  preprocess c.start stdlib_h

/-- What a name stands for after the header has been read: the replacement
text of its entry in the definition table, if it has one. -/
def redirect (c : BuildConfig) (name : String) : Option String :=
  ((header c).table.find? (fun d => d.name == name)).map (fun d => d.body)

/-- The `#define` lines for a name that the header itself contributed. -/
def definesOf (c : BuildConfig) (name : String) : List Def :=
  (header c).defines.filter (fun d => d.name == name)

/-- The header's declaration of a function, if it declares it. -/
def declaration (c : BuildConfig) (name : String) : Option Decl :=
  (header c).decls.find? (fun d => d.name == name)

/-- The header declares the function. -/
def declares (c : BuildConfig) (name : String) : Bool :=
  (declaration c name).isSome

/-- Which encoding a declared function works in, as the header documents it
on the declaration. -/
inductive Version where
  | multi
  | ansi
  | utf8
  deriving DecidableEq, Repr

/-- The version a declaration's comment names. -/
def versionOfNote (note : String) : Option Version :=
  if note == "Multi-encoding version" then some .multi
  else if note == "ANSI version" then some .ansi
  else if note == "UTF-8 version" then some .utf8
  else none

/-- The documented version of the function that `mkstemp` stands for. -/
def boundVersion (c : BuildConfig) : Option Version :=
  (redirect c "mkstemp").bind fun target =>
    (declaration c target).bind fun d => versionOfNote d.note

/-- The MS-DOS-only configuration. -/
def dosOnly : BuildConfig := ⟨true, false, false, false⟩

/-! ## Part 2: the declared functions, modelled from the specification

The header declares `mkstempM`, `mkstempA`, `mkstempU` and `_fullpathU` but
holds none of their bodies. The definitions below follow the specification's
sections 3, 4.1, 4.2 and 7. -/

/-- A narrow (byte) string: the content of a caller's `char` buffer. -/
abbrev CStr := List Char

/-- A wide-character string, as the platform's file API takes it. -/
abbrev WStr := List Nat

/-- The system-ANSI code page number of the Windows API. -/
def CP_ACP : Nat := 0

/-- The UTF-8 code page number of the Windows API. -/
def CP_UTF8 : Nat := 65001

/-- Modelled from the spec: the type `EncodingMode` of section 3, which the
header does not declare. -/
inductive EncodingMode where
  | SystemDefault
  | UTF8
  deriving DecidableEq, Repr

/-- The code page that stands for a mode. -/
def EncodingMode.codePage : EncodingMode → Nat
  | .SystemDefault => CP_ACP
  | .UTF8 => CP_UTF8

/-- Modelled from the spec: the error kinds of section 7. -/
inductive Error where
  | CollisionExhausted
  | OsError (code : Nat)
  | BufferTooSmall
  deriving DecidableEq, Repr

/-- Modelled from the spec: the file system as the creation primitive sees
it. `files` are the paths that exist; `refused` lists the paths on which the
platform fails for a reason other than existence (permissions, invalid path,
disk full), each with the failure code. -/
structure FileSystem where
  files : List WStr
  refused : List (WStr × Nat)
  deriving DecidableEq, Repr

/-- An open handle: it refers to the file at `path`. -/
structure Handle where
  path : WStr
  deriving DecidableEq, Repr

/-- What one exclusive-create attempt reports. -/
inductive Attempt where
  | created (fs : FileSystem) (h : Handle)
  | collision
  | failed (code : Nat)
  deriving DecidableEq, Repr

/-- Modelled from the spec: the platform's exclusive, create-only open
(section 4.1): it fails if the file already exists, and creation and the
existence test are one step. -/
def createExclusive (fs : FileSystem) (p : WStr) : Attempt :=
  match fs.refused.lookup p with
  | some code => .failed code
  | none =>
    if p ∈ fs.files then .collision
    else .created { fs with files := p :: fs.files } ⟨p⟩

/-- Modelled from the spec: the services the core consumes as black boxes
(section 1), and the two values section 9 leaves to the implementer.
`toWide` and `fromWide` are the encoding-conversion service, by code page;
`fullPathW` is the platform's canonicalization primitive; `pick attempt i`
is the source of the `i`-th character of a candidate; `retryBound` is the
retry bound. -/
structure Platform where
  toWide : Nat → CStr → WStr
  fromWide : Nat → WStr → CStr
  fullPathW : WStr → Except Nat WStr
  pick : Nat → Nat → Nat
  retryBound : Nat

/-- Modelled from the spec: the fixed unique-name alphabet (letters and
digits, sections 3 and 4.1). -/
def alphabet : List Char :=
  "abcdefghijklmnopqrstuvwxyzABCDEFGHIJKLMNOPQRSTUVWXYZ0123456789".toList

/-- Modelled from the spec: the contractually fixed length of the
placeholder run (six, section 3). -/
def PLACEHOLDER_LEN : Nat := 6

/-- The placeholder run of a template. -/
def placeholder : CStr := List.replicate PLACEHOLDER_LEN 'X'

/-- The part of a template buffer before its last `PLACEHOLDER_LEN`
characters. -/
def stem (t : CStr) : CStr := t.take (t.length - PLACEHOLDER_LEN)

/-- The last `PLACEHOLDER_LEN` characters of a template buffer. -/
def run (t : CStr) : CStr := t.drop (t.length - PLACEHOLDER_LEN)

/-- A valid template: a fixed stem followed by the placeholder run. -/
def isTemplate (t : CStr) : Bool :=
  decide (PLACEHOLDER_LEN ≤ t.length) && (run t == placeholder)

/-- The candidate of an attempt: `PLACEHOLDER_LEN` characters of the
alphabet. -/
def candidate (P : Platform) (attempt : Nat) : CStr :=
  (List.range PLACEHOLDER_LEN).map fun i =>
    alphabet.getD (P.pick attempt i % alphabet.length) 'a'

/-- Overwrite the placeholder run of the buffer with a candidate. -/
def substitute (t cand : CStr) : CStr := stem t ++ cand

/-- What a call of the temporary-file creator leaves: the returned handle or
error, the caller's buffer, the file system, and the number of
exclusive-create attempts made. -/
structure Outcome where
  result : Except Error Handle
  buffer : CStr
  fs : FileSystem
  attempts : Nat

/-- Modelled from the spec: the retry loop of `create` (section 4.1) with
`left` attempts left after `done` attempts. -/
def tryCandidates (P : Platform) (cp : Nat) :
    (left : Nat) → (done : Nat) → CStr → FileSystem → Outcome
  | 0, done, buf, fs => ⟨.error .CollisionExhausted, buf, fs, done⟩
  | left + 1, done, buf, fs =>
    let name := substitute buf (candidate P done)
    match createExclusive fs (P.toWide cp name) with
    | .created fs1 h => ⟨.ok h, name, fs1, done + 1⟩
    | .collision => tryCandidates P cp left (done + 1) name fs
    | .failed code => ⟨.error (.OsError code), name, fs, done + 1⟩

/-- Modelled from the spec: the body of `mkstempM(char *pszName, UINT cp)`,
the multi-encoding temporary-file creator; the header only declares it. -/
def mkstempM (P : Platform) (fs : FileSystem) (pszName : CStr) (cp : Nat) : Outcome :=
  tryCandidates P cp P.retryBound 0 pszName fs

/-- Modelled from the spec: the contract `create(template, mode)` of
section 4.1. -/
def create (P : Platform) (fs : FileSystem) (template : CStr) (mode : EncodingMode) :
    Outcome :=
  mkstempM P fs template mode.codePage

/-- Modelled from the spec: the body of `mkstempA(char *pszName)`, the ANSI
entry point, which delegates to the shared routine (section 2). -/
def mkstempA (P : Platform) (fs : FileSystem) (pszName : CStr) : Outcome :=
  create P fs pszName .SystemDefault

/-- Modelled from the spec: the body of `mkstempU(char *pszName)`, the UTF-8
entry point, which delegates to the shared routine (section 2). -/
def mkstempU (P : Platform) (fs : FileSystem) (pszName : CStr) : Outcome :=
  create P fs pszName .UTF8

/-- What a call of the path resolver leaves: success or the error, and the
caller's output buffer. -/
structure Resolved where
  result : Except Error Unit
  buffer : CStr

/-- Modelled from the spec: the contract `resolve(relativePath, mode,
maxLength)` of section 4.2, writing into the caller's buffer `absPath`. -/
def resolve (P : Platform) (absPath relPath : CStr) (mode : EncodingMode)
    (maxLength : Nat) : Resolved :=
  match P.fullPathW (P.toWide mode.codePage relPath) with
  | .error code => ⟨.error (.OsError code), absPath⟩
  | .ok w =>
    let out := P.fromWide mode.codePage w
    if maxLength < out.length then ⟨.error .BufferTooSmall, absPath⟩
    else ⟨.ok (), out⟩

/-- Modelled from the spec: the body of
`_fullpathU(char *absPath, const char *relPath, size_t maxLength)`, the
UTF-8 path resolver; the header only declares it. -/
def _fullpathU (P : Platform) (absPath relPath : CStr) (maxLength : Nat) : Resolved :=
  resolve P absPath relPath .UTF8 maxLength

/-! ## Sample values for the examples -/

/-- A small platform for the examples: narrow characters map to their code
points whatever the code page, the canonical form of a path is the path
under `C:\`, the `i`-th candidate character of attempt `k` is letter
`k + i`, and three attempts are made. -/
def samplePlatform : Platform where
  toWide := fun _ s => s.map Char.toNat
  fromWide := fun _ w => w.map Char.ofNat
  fullPathW := fun w => .ok (67 :: 58 :: 92 :: w)
  pick := fun k i => k + i
  retryBound := 3

/-- A file system for the examples: only `tmpabcdef` exists. -/
def sampleFs : FileSystem where
  files := ["tmpabcdef".toList.map Char.toNat]
  refused := []

/-- A file system for the examples: `tmpabcdef` exists, and the platform
refuses `tmpbcdefg` with code 13. -/
def refusingFs : FileSystem where
  files := ["tmpabcdef".toList.map Char.toNat]
  refused := [("tmpbcdefg".toList.map Char.toNat, 13)]

/-- A file system for the examples in which the first three candidates for
`tmpXXXXXX` exist. -/
def fullFs : FileSystem where
  files := ["tmpabcdef".toList.map Char.toNat, "tmpbcdefg".toList.map Char.toNat,
    "tmpcdefgh".toList.map Char.toNat]
  refused := []


/-! ## Theorems about the header -/

/-- The binding of `mkstemp` in every configuration. -/
theorem redirect_mkstemp (c : BuildConfig) :
    redirect c "mkstemp" =
      if c._WIN32 then some (if c._UTF8_SOURCE then "mkstempU" else "mkstempA") else none := by
  rcases c with ⟨d, w, u, p⟩
  cases d <;> cases w <;> cases u <;> cases p <;> rfl

/-- The binding of `_fullpath` in every configuration. -/
theorem redirect_fullpath (c : BuildConfig) :
    redirect c "_fullpath" =
      if c._WIN32 && c._UTF8_SOURCE then some "_fullpathU" else none := by
  rcases c with ⟨d, w, u, p⟩
  cases d <;> cases w <;> cases u <;> cases p <;> rfl

/-- The functions the header declares in every configuration. -/
theorem header_decls (c : BuildConfig) :
    (header c).decls.map (fun d => d.name) =
      (if c._MSDOS then ["mkstemp"] else []) ++
      (if c._WIN32 then ["_fullpathU", "mkstempM", "mkstempA", "mkstempU"] else []) := by
  rcases c with ⟨d, w, u, p⟩
  cases d <;> cases w <;> cases u <;> cases p <;> rfl

/-- C1: in every Win32 configuration the header defines `mkstemp` exactly
once; it stands for `mkstempU` if and only if `_UTF8_SOURCE` is defined, and
for `mkstempA` otherwise. -/
theorem mkstemp_bound_by_UTF8_SOURCE (c : BuildConfig) (hw : c._WIN32 = true) :
    (definesOf c "mkstemp").length = 1 ∧
    (redirect c "mkstemp" = some "mkstempU" ↔ c._UTF8_SOURCE = true) ∧
    (redirect c "mkstemp" = some "mkstempA" ↔ c._UTF8_SOURCE = false) := by
  rcases c with ⟨d, w, u, p⟩
  cases hw
  cases d <;> cases u <;> cases p <;> decide

/-- C1 at the two plain Win32 configurations: with `_UTF8_SOURCE` the name
stands for `mkstempU`, without it for `mkstempA`. -/
theorem mkstemp_bound_by_UTF8_SOURCE_witness :
    redirect ⟨false, true, true, false⟩ "mkstemp" = some "mkstempU" ∧
    redirect ⟨false, true, false, false⟩ "mkstemp" = some "mkstempA" ∧
    (definesOf ⟨false, true, false, false⟩ "mkstemp").length = 1 :=
  ⟨(mkstemp_bound_by_UTF8_SOURCE ⟨false, true, true, false⟩ rfl).2.1.2 rfl,
    (mkstemp_bound_by_UTF8_SOURCE ⟨false, true, false, false⟩ rfl).2.2.2 rfl,
    (mkstemp_bound_by_UTF8_SOURCE ⟨false, true, false, false⟩ rfl).1⟩

/-- C2: in every Win32 configuration, `_fullpath` stands for `_fullpathU`
when `_UTF8_SOURCE` is defined, and when it is not the header has no
`#define` for `_fullpath` and the name is left as it is. -/
theorem fullpath_bound_by_UTF8_SOURCE (c : BuildConfig) (hw : c._WIN32 = true) :
    (c._UTF8_SOURCE = true → redirect c "_fullpath" = some "_fullpathU") ∧
    (c._UTF8_SOURCE = false →
      redirect c "_fullpath" = none ∧ definesOf c "_fullpath" = []) := by
  rcases c with ⟨d, w, u, p⟩
  cases hw
  cases d <;> cases u <;> cases p <;> decide

/-- C2 at the two plain Win32 configurations. -/
theorem fullpath_bound_by_UTF8_SOURCE_witness :
    redirect ⟨false, true, true, false⟩ "_fullpath" = some "_fullpathU" ∧
    redirect ⟨false, true, false, false⟩ "_fullpath" = none ∧
    definesOf ⟨false, true, false, false⟩ "_fullpath" = [] :=
  ⟨(fullpath_bound_by_UTF8_SOURCE ⟨false, true, true, false⟩ rfl).1 rfl,
    (fullpath_bound_by_UTF8_SOURCE ⟨false, true, false, false⟩ rfl).2 rfl⟩

/-- C7: in an MS-DOS-only configuration the header declares exactly one
function, `int mkstemp(char *pszName)`; it declares none of `mkstempM`,
`mkstempA`, `mkstempU`, `_fullpathU`; it has no `#define` for `mkstemp` or
`_fullpath`; and defining `_UTF8_SOURCE` or not changes none of its
declarations, definitions or text. -/
theorem msdos_only_header (c : BuildConfig) (hd : c._MSDOS = true) (hw : c._WIN32 = false) :
    (header c).decls = [⟨"int", "mkstemp", [⟨"char *", "pszName"⟩], "Create a temporary file"⟩] ∧
    declares c "mkstempM" = false ∧ declares c "mkstempA" = false ∧
    declares c "mkstempU" = false ∧ declares c "_fullpathU" = false ∧
    definesOf c "mkstemp" = [] ∧ definesOf c "_fullpath" = [] ∧
    redirect c "mkstemp" = none ∧ redirect c "_fullpath" = none ∧
    (header { c with _UTF8_SOURCE := true }).decls =
      (header { c with _UTF8_SOURCE := false }).decls ∧
    (header { c with _UTF8_SOURCE := true }).defines =
      (header { c with _UTF8_SOURCE := false }).defines ∧
    (header { c with _UTF8_SOURCE := true }).texts =
      (header { c with _UTF8_SOURCE := false }).texts := by
  rcases c with ⟨d, w, u, p⟩
  cases hd
  cases hw
  cases u <;> cases p <;> decide

/-- C7 at the MS-DOS-only configuration with `_UTF8_SOURCE` defined. -/
theorem msdos_only_header_witness :
    (header ⟨true, false, true, false⟩).decls =
      [⟨"int", "mkstemp", [⟨"char *", "pszName"⟩], "Create a temporary file"⟩] ∧
    declares ⟨true, false, true, false⟩ "mkstempU" = false ∧
    redirect ⟨true, false, true, false⟩ "mkstemp" = none ∧
    redirect ⟨true, false, true, false⟩ "_fullpath" = none :=
  have h := msdos_only_header ⟨true, false, true, false⟩ rfl rfl
  ⟨h.1, h.2.2.2.1, h.2.2.2.2.2.2.2.1, h.2.2.2.2.2.2.2.2.1⟩

/-- C8, as stated, fails: in the Win32 configuration without `_UTF8_SOURCE`
the function `mkstemp` stands for is documented as the ANSI version, so it is
not true that the bound variant is the UTF-8 one in every Win32
configuration. -/
theorem bound_version_not_always_utf8 :
    ¬ ∀ c : BuildConfig, c._WIN32 = true → boundVersion c = some Version.utf8 := by
  intro h
  have h1 := h ⟨false, true, false, false⟩ rfl
  revert h1
  decide

/-- C8, amended: in every Win32 configuration the function `mkstemp` stands
for is the UTF-8 version when `_UTF8_SOURCE` is defined and the ANSI version
when it is not. -/
theorem bound_version_follows_UTF8_SOURCE (c : BuildConfig) (hw : c._WIN32 = true) :
    boundVersion c = some (if c._UTF8_SOURCE then Version.utf8 else Version.ansi) := by
  rcases c with ⟨d, w, u, p⟩
  cases hw
  cases d <;> cases u <;> cases p <;> decide

/-- C8 amended, at the Win32 configuration without `_UTF8_SOURCE`. -/
theorem bound_version_follows_UTF8_SOURCE_witness :
    boundVersion ⟨false, true, false, false⟩ = some Version.ansi :=
  bound_version_follows_UTF8_SOURCE ⟨false, true, false, false⟩ rfl

/-- C9: in every configuration, `mkstemp` stands for `mkstempU` if and only
if `_fullpath` stands for `_fullpathU`. -/
theorem mkstemp_utf8_iff_fullpath_utf8 (c : BuildConfig) :
    redirect c "mkstemp" = some "mkstempU" ↔ redirect c "_fullpath" = some "_fullpathU" := by
  rcases c with ⟨d, w, u, p⟩
  cases d <;> cases w <;> cases u <;> cases p <;> decide

/-- C10: in every configuration, every `#define` of the header for `mkstemp`
or `_fullpath` names a function the header declares in that configuration;
and the function `mkstemp` stands for is declared with the same parameter
list as the MS-DOS `mkstemp`, one `char *pszName`, and is not `mkstempM`. -/
theorem redirections_declared_same_shape (c : BuildConfig) :
    (∀ d ∈ (header c).defines, d.name = "mkstemp" ∨ d.name = "_fullpath" →
      declares c d.body = true) ∧
    (∀ target, redirect c "mkstemp" = some target →
      target ≠ "mkstempM" ∧
      ∃ d, declaration c target = some d ∧
        d.params = [⟨"char *", "pszName"⟩] ∧
        (declaration dosOnly "mkstemp").map (fun m => m.params) = some d.params) := by
  rcases c with ⟨d, w, u, p⟩
  constructor
  · cases d <;> cases w <;> cases u <;> cases p <;> decide
  · intro target h
    rw [redirect_mkstemp] at h
    cases w <;> cases u <;> simp at h <;> subst h <;>
      cases d <;> cases p <;> exact ⟨by decide, _, rfl, rfl, rfl⟩

/-- C10 at the Win32 configuration with `_UTF8_SOURCE`: `mkstemp` stands for
`mkstempU`, which the header declares there with one `char *pszName`. -/
theorem redirections_declared_same_shape_witness :
    declares ⟨false, true, true, false⟩ "mkstempU" = true ∧
    declares ⟨false, true, true, false⟩ "_fullpathU" = true ∧
    ("mkstempU" ≠ "mkstempM" ∧
      ∃ d, declaration ⟨false, true, true, false⟩ "mkstempU" = some d ∧
        d.params = [⟨"char *", "pszName"⟩] ∧
        (declaration dosOnly "mkstemp").map (fun m => m.params) = some d.params) :=
  ⟨(redirections_declared_same_shape ⟨false, true, true, false⟩).1
      ⟨"mkstemp", "mkstempU", "For processing UTF-8 pathnames"⟩ (by decide) (Or.inl rfl),
    (redirections_declared_same_shape ⟨false, true, true, false⟩).1
      ⟨"_fullpath", "_fullpathU", "For processing UTF-8 pathnames"⟩ (by decide) (Or.inr rfl),
    (redirections_declared_same_shape ⟨false, true, true, false⟩).2 "mkstempU" rfl⟩

/-- The include guard: in every configuration the header ends with no
conditional open, and reading it a second time adds no declaration, no
definition, no inclusion and no text. -/
theorem header_read_twice (c : BuildConfig) :
    (header c).conds = [] ∧
    (preprocess (header c) stdlib_h).decls = (header c).decls ∧
    (preprocess (header c) stdlib_h).defines = (header c).defines ∧
    (preprocess (header c) stdlib_h).includes = (header c).includes ∧
    (preprocess (header c) stdlib_h).texts = (header c).texts ∧
    (preprocess (header c) stdlib_h).table = (header c).table := by
  rcases c with ⟨d, w, u, p⟩
  cases d <;> cases w <;> cases u <;> cases p <;> decide

/-- Both `#define mkstemp` lines carry the comment "For processing UTF-8
pathnames": in every Win32 configuration that is the comment of the
definition in force, also when it names `mkstempA`, which the header
declares as the ANSI version. -/
theorem mkstemp_define_note (c : BuildConfig) :
    ∀ d ∈ definesOf c "mkstemp", d.note = "For processing UTF-8 pathnames" := by
  rcases c with ⟨d, w, u, p⟩
  cases d <;> cases w <;> cases u <;> cases p <;> decide

/-- The comment of `mkstemp_define_note` at the Win32 configuration without
`_UTF8_SOURCE`. -/
theorem mkstemp_define_note_witness :
    (⟨"mkstemp", "mkstempA", "For processing UTF-8 pathnames"⟩ : Def).note =
      "For processing UTF-8 pathnames" :=
  mkstemp_define_note ⟨false, true, false, false⟩
    ⟨"mkstemp", "mkstempA", "For processing UTF-8 pathnames"⟩ (by decide)


/-! ## Theorems about the modelled functions -/

/-- A candidate has `PLACEHOLDER_LEN` characters. -/
theorem candidate_length (P : Platform) (k : Nat) :
    (candidate P k).length = PLACEHOLDER_LEN := by
  simp [candidate]

/-- Every character of a candidate is a character of the alphabet. -/
theorem candidate_mem (P : Platform) (k : Nat) : ∀ c ∈ candidate P k, c ∈ alphabet := by
  intro c hc
  simp only [candidate, List.mem_map] at hc
  obtain ⟨i, -, rfl⟩ := hc
  have hpos : 0 < alphabet.length := by decide
  have hlt : P.pick k i % alphabet.length < alphabet.length := Nat.mod_lt _ hpos
  rw [List.getD_eq_getElem _ _ hlt]
  exact List.getElem_mem _

/-- The stem is the buffer without its last `PLACEHOLDER_LEN` characters. -/
theorem stem_length (t : CStr) : (stem t).length = t.length - PLACEHOLDER_LEN := by
  simp [stem]

/-- Substituting a candidate keeps the stem. -/
theorem stem_substitute (t cand : CStr) (hc : cand.length = PLACEHOLDER_LEN) :
    stem (substitute t cand) = stem t := by
  have hl : (stem t ++ cand).length - PLACEHOLDER_LEN = (stem t).length := by
    simp [hc]
  show List.take ((stem t ++ cand).length - PLACEHOLDER_LEN) (stem t ++ cand) = stem t
  rw [hl, List.take_left]

/-- After a substitution the last `PLACEHOLDER_LEN` characters are the
candidate. -/
theorem run_substitute (t cand : CStr) (hc : cand.length = PLACEHOLDER_LEN) :
    run (substitute t cand) = cand := by
  have hl : (stem t ++ cand).length - PLACEHOLDER_LEN = (stem t).length := by
    simp [hc]
  show List.drop ((stem t ++ cand).length - PLACEHOLDER_LEN) (stem t ++ cand) = cand
  rw [hl, List.drop_left]

/-- A second substitution overwrites the first. -/
theorem substitute_substitute (t c1 c2 : CStr) (hc : c1.length = PLACEHOLDER_LEN) :
    substitute (substitute t c1) c2 = substitute t c2 := by
  show stem (substitute t c1) ++ c2 = stem t ++ c2
  rw [stem_substitute t c1 hc]

/-- Substituting a candidate keeps the length of a buffer that has room for
the placeholder run. -/
theorem length_substitute (t cand : CStr) (hc : cand.length = PLACEHOLDER_LEN)
    (ht : PLACEHOLDER_LEN ≤ t.length) : (substitute t cand).length = t.length := by
  simp only [substitute, List.length_append, stem_length, hc]
  omega

/-- A successful run of the loop: the handle is for the path of the buffer
as left, that path is new, and the buffer is the old stem followed by a
candidate. -/
theorem tryCandidates_ok (P : Platform) (cp : Nat) (fs : FileSystem) :
    ∀ (left done : Nat) (buf : CStr) (h : Handle),
      (tryCandidates P cp left done buf fs).result = .ok h →
      ∃ k, (tryCandidates P cp left done buf fs).buffer = substitute buf (candidate P k) ∧
        h.path = P.toWide cp (tryCandidates P cp left done buf fs).buffer ∧
        h.path ∉ fs.files ∧
        (tryCandidates P cp left done buf fs).fs = { fs with files := h.path :: fs.files } := by
  intro left
  induction left with
  | zero =>
    intro done buf h hr
    simp [tryCandidates] at hr
  | succ n ih =>
    intro done buf h hr
    unfold tryCandidates at hr ⊢
    simp only at hr ⊢
    cases hc : createExclusive fs (P.toWide cp (substitute buf (candidate P done))) with
    | created fs1 h1 =>
      rw [hc] at hr
      simp only at hr ⊢
      have hh : h1 = h := by injection hr
      subst hh
      unfold createExclusive at hc
      split at hc
      · cases hc
      · split at hc
        · cases hc
        · rename_i hnot
          injection hc with hfs hh
          subst hh
          subst hfs
          exact ⟨done, rfl, rfl, hnot, rfl⟩
    | collision =>
      rw [hc] at hr
      simp only at hr ⊢
      obtain ⟨k, hb, hp, hn, hf⟩ := ih (done + 1) _ h hr
      refine ⟨k, ?_, hp, hn, hf⟩
      rw [hb]
      exact substitute_substitute buf _ _ (candidate_length P done)
    | failed code =>
      rw [hc] at hr
      simp at hr

/-- A failed run of the loop leaves the file system as it was, and the error
is `CollisionExhausted` or `OsError`. -/
theorem tryCandidates_error (P : Platform) (cp : Nat) (fs : FileSystem) :
    ∀ (left done : Nat) (buf : CStr) (e : Error),
      (tryCandidates P cp left done buf fs).result = .error e →
      (tryCandidates P cp left done buf fs).fs = fs ∧
      (e = .CollisionExhausted ∨ ∃ code, e = .OsError code) := by
  intro left
  induction left with
  | zero =>
    intro done buf e hr
    simp only [tryCandidates] at hr ⊢
    injection hr with he
    exact ⟨trivial, Or.inl he.symm⟩
  | succ n ih =>
    intro done buf e hr
    unfold tryCandidates at hr ⊢
    simp only at hr ⊢
    cases hc : createExclusive fs (P.toWide cp (substitute buf (candidate P done))) with
    | created fs1 h1 =>
      rw [hc] at hr
      simp at hr
    | collision =>
      rw [hc] at hr
      simp only at hr ⊢
      exact ih (done + 1) _ e hr
    | failed code =>
      rw [hc] at hr
      simp only at hr ⊢
      injection hr with he
      exact ⟨trivial, Or.inr ⟨code, he.symm⟩⟩


/-- When every remaining attempt collides, the loop makes all of them and
ends with `CollisionExhausted`. -/
theorem tryCandidates_all_collide (P : Platform) (cp : Nat) (fs : FileSystem) (t : CStr) :
    ∀ (left done : Nat) (buf : CStr), stem buf = stem t →
      (∀ k, done ≤ k → k < done + left →
        createExclusive fs (P.toWide cp (substitute t (candidate P k))) = .collision) →
      (tryCandidates P cp left done buf fs).result = .error .CollisionExhausted ∧
      (tryCandidates P cp left done buf fs).attempts = done + left ∧
      (tryCandidates P cp left done buf fs).fs = fs := by
  intro left
  induction left with
  | zero =>
    intro done buf _ _
    simp [tryCandidates]
  | succ n ih =>
    intro done buf hs hall
    have hname : substitute buf (candidate P done) = substitute t (candidate P done) := by
      show stem buf ++ _ = stem t ++ _
      rw [hs]
    have hc := hall done (Nat.le_refl _) (by omega)
    unfold tryCandidates
    simp only [hname, hc]
    have hs1 : stem (substitute t (candidate P done)) = stem t :=
      stem_substitute t _ (candidate_length P done)
    have h := ih (done + 1) _ hs1 (fun k h1 h2 => hall k (by omega) (by omega))
    refine ⟨h.1, ?_, h.2.2⟩
    rw [h.2.1]
    omega

/-- When attempt `j` is the first that does not collide and the platform
fails on it, the loop ends there with `OsError`. -/
theorem tryCandidates_os_failure (P : Platform) (cp : Nat) (fs : FileSystem) (t : CStr)
    (j code : Nat) :
    ∀ (left done : Nat) (buf : CStr), stem buf = stem t → done ≤ j → j < done + left →
      (∀ k, done ≤ k → k < j →
        createExclusive fs (P.toWide cp (substitute t (candidate P k))) = .collision) →
      createExclusive fs (P.toWide cp (substitute t (candidate P j))) = .failed code →
      (tryCandidates P cp left done buf fs).result = .error (.OsError code) ∧
      (tryCandidates P cp left done buf fs).attempts = j + 1 ∧
      (tryCandidates P cp left done buf fs).fs = fs := by
  intro left
  induction left with
  | zero =>
    intro done buf _ h1 h2
    omega
  | succ n ih =>
    intro done buf hs h1 h2 hall hj
    have hname : substitute buf (candidate P done) = substitute t (candidate P done) := by
      show stem buf ++ _ = stem t ++ _
      rw [hs]
    unfold tryCandidates
    rcases Nat.eq_or_lt_of_le h1 with heq | hlt
    · subst heq
      simp only [hname, hj]
      exact ⟨trivial, trivial, trivial⟩
    · have hc := hall done (Nat.le_refl _) hlt
      simp only [hname, hc]
      have hs1 : stem (substitute t (candidate P done)) = stem t :=
        stem_substitute t _ (candidate_length P done)
      exact ih (done + 1) _ hs1 (by omega) (by omega)
        (fun k h3 h4 => hall k (by omega) h4) hj

/-- C3: for every template buffer, `mkstempA` leaves the same result, the
same buffer and the same file system as `mkstempM` with the system-ANSI code
page, and `mkstempU` the same as `mkstempM` with the UTF-8 code page. -/
theorem entry_points_delegate (P : Platform) (fs : FileSystem) (t : CStr) :
    ((mkstempA P fs t).result = (mkstempM P fs t CP_ACP).result ∧
      (mkstempA P fs t).buffer = (mkstempM P fs t CP_ACP).buffer ∧
      (mkstempA P fs t).fs = (mkstempM P fs t CP_ACP).fs) ∧
    ((mkstempU P fs t).result = (mkstempM P fs t CP_UTF8).result ∧
      (mkstempU P fs t).buffer = (mkstempM P fs t CP_UTF8).buffer ∧
      (mkstempU P fs t).fs = (mkstempM P fs t CP_UTF8).fs) :=
  ⟨⟨rfl, rfl, rfl⟩, ⟨rfl, rfl, rfl⟩⟩

/-- C4: for every valid template and every mode, `create` either succeeds
or fails. On success the handle is for the file named by the buffer as
left, that file did not exist before and exists after (and nothing else
changed), and the buffer keeps its length and its stem while its last
`PLACEHOLDER_LEN` characters are characters of the alphabet. On failure the
error is `CollisionExhausted` or `OsError` and no file was created. -/
theorem create_valid_template (P : Platform) (fs : FileSystem) (t : CStr)
    (mode : EncodingMode) (ht : isTemplate t = true) :
    (∃ h, (create P fs t mode).result = .ok h ∧
      h.path = P.toWide mode.codePage (create P fs t mode).buffer ∧
      h.path ∉ fs.files ∧
      h.path ∈ (create P fs t mode).fs.files ∧
      (create P fs t mode).fs = { fs with files := h.path :: fs.files } ∧
      (create P fs t mode).buffer.length = t.length ∧
      stem (create P fs t mode).buffer = stem t ∧
      (run (create P fs t mode).buffer).length = PLACEHOLDER_LEN ∧
      ∀ c ∈ run (create P fs t mode).buffer, c ∈ alphabet) ∨
    ((create P fs t mode).fs = fs ∧
      ((create P fs t mode).result = .error .CollisionExhausted ∨
        ∃ code, (create P fs t mode).result = .error (.OsError code))) := by
  have hlen : PLACEHOLDER_LEN ≤ t.length := by
    simp only [isTemplate, Bool.and_eq_true, decide_eq_true_eq] at ht
    exact ht.1
  unfold create mkstempM
  cases hr : (tryCandidates P mode.codePage P.retryBound 0 t fs).result with
  | ok h =>
    left
    obtain ⟨k, hb, hp, hn, hf⟩ := tryCandidates_ok P mode.codePage fs _ _ _ h hr
    refine ⟨h, rfl, hp, hn, ?_, hf, ?_, ?_, ?_, ?_⟩
    · rw [hf]
      exact List.mem_cons_self _ _
    · rw [hb]
      exact length_substitute t _ (candidate_length P k) hlen
    · rw [hb]
      exact stem_substitute t _ (candidate_length P k)
    · rw [hb, run_substitute t _ (candidate_length P k)]
      exact candidate_length P k
    · rw [hb, run_substitute t _ (candidate_length P k)]
      exact candidate_mem P k
  | error e =>
    right
    obtain ⟨hf, he⟩ := tryCandidates_error P mode.codePage fs _ _ _ e hr
    refine ⟨hf, ?_⟩
    rcases he with he | ⟨code, he⟩
    · exact Or.inl (by rw [he])
    · exact Or.inr ⟨code, by rw [he]⟩

/-- C4 on the template `tmpXXXXXX` in the sample file system, UTF-8 mode:
the first candidate exists, so the second is created, and the buffer is left
as `tmpbcdefg`. -/
theorem create_valid_template_witness :
    isTemplate "tmpXXXXXX".toList = true ∧
    ∃ h, (create samplePlatform sampleFs "tmpXXXXXX".toList .UTF8).result = .ok h ∧
      h.path ∉ sampleFs.files ∧
      h.path ∈ (create samplePlatform sampleFs "tmpXXXXXX".toList .UTF8).fs.files ∧
      stem (create samplePlatform sampleFs "tmpXXXXXX".toList .UTF8).buffer = "tmp".toList ∧
      (create samplePlatform sampleFs "tmpXXXXXX".toList .UTF8).buffer = "tmpbcdefg".toList :=
  ⟨by decide,
    (create_valid_template samplePlatform sampleFs "tmpXXXXXX".toList .UTF8 (by decide)).elim
      (fun ⟨h, h1, _, h3, h4, _, _, h7, _, _⟩ => ⟨h, h1, h3, h4, h7, by decide⟩)
      (fun ⟨hfs, _⟩ => absurd hfs (by decide))⟩

/-- C5: for every template and mode, if each of the `retryBound` candidates
collides, `create` makes exactly `retryBound` attempts and fails with
`CollisionExhausted`; and if the platform fails on attempt `j` for another
reason, the attempts before it having collided, `create` fails with that
`OsError` after exactly `j + 1` attempts. Neither creates a file. -/
theorem create_retry_bounded (P : Platform) (fs : FileSystem) (t : CStr)
    (mode : EncodingMode) :
    ((∀ k, k < P.retryBound →
        createExclusive fs (P.toWide mode.codePage (substitute t (candidate P k))) =
          .collision) →
      (create P fs t mode).result = .error .CollisionExhausted ∧
      (create P fs t mode).attempts = P.retryBound ∧
      (create P fs t mode).fs = fs) ∧
    (∀ j code, j < P.retryBound →
      (∀ k, k < j →
        createExclusive fs (P.toWide mode.codePage (substitute t (candidate P k))) =
          .collision) →
      createExclusive fs (P.toWide mode.codePage (substitute t (candidate P j))) =
        .failed code →
      (create P fs t mode).result = .error (.OsError code) ∧
      (create P fs t mode).attempts = j + 1 ∧
      (create P fs t mode).fs = fs) := by
  constructor
  · intro hall
    have h := tryCandidates_all_collide P mode.codePage fs t P.retryBound 0 t rfl
      (fun k _ hk => hall k (by omega))
    simpa [create, mkstempM] using h
  · intro j code hj hall hfail
    exact tryCandidates_os_failure P mode.codePage fs t j code P.retryBound 0 t rfl
      (Nat.zero_le _) (by omega) (fun k _ hk => hall k hk) hfail

/-- C5 on the template `tmpXXXXXX`: with all three candidates present the
call fails with `CollisionExhausted` after three attempts; with the first
present and the second refused with code 13 it fails with `OsError 13` after
two. -/
theorem create_retry_bounded_witness :
    ((create samplePlatform fullFs "tmpXXXXXX".toList .SystemDefault).result =
        .error .CollisionExhausted ∧
      (create samplePlatform fullFs "tmpXXXXXX".toList .SystemDefault).attempts = 3 ∧
      (create samplePlatform fullFs "tmpXXXXXX".toList .SystemDefault).fs = fullFs) ∧
    ((create samplePlatform refusingFs "tmpXXXXXX".toList .SystemDefault).result =
        .error (.OsError 13) ∧
      (create samplePlatform refusingFs "tmpXXXXXX".toList .SystemDefault).attempts = 2 ∧
      (create samplePlatform refusingFs "tmpXXXXXX".toList .SystemDefault).fs = refusingFs) :=
  ⟨(create_retry_bounded samplePlatform fullFs "tmpXXXXXX".toList .SystemDefault).1
      (by decide),
    (create_retry_bounded samplePlatform refusingFs "tmpXXXXXX".toList .SystemDefault).2
      1 13 (by decide) (by decide) (by decide)⟩

/-- C6: for every relative path, mode and `maxLength`, if the platform
resolves the path and the canonical path re-encoded per the mode is longer
than `maxLength`, `resolve` fails with `BufferTooSmall` and the caller's
output buffer is as it was. -/
theorem resolve_buffer_too_small (P : Platform) (absPath relPath : CStr)
    (mode : EncodingMode) (maxLength : Nat) (w : WStr)
    (hw : P.fullPathW (P.toWide mode.codePage relPath) = .ok w)
    (hlen : maxLength < (P.fromWide mode.codePage w).length) :
    (resolve P absPath relPath mode maxLength).result = .error .BufferTooSmall ∧
    (resolve P absPath relPath mode maxLength).buffer = absPath := by
  unfold resolve
  simp only [hw, hlen, if_true]
  exact ⟨trivial, trivial⟩

/-- C6 on the path `ab`, whose canonical form `C:\ab` has five characters,
with room for four. -/
theorem resolve_buffer_too_small_witness :
    (resolve samplePlatform "old".toList "ab".toList .UTF8 4).result =
      .error .BufferTooSmall ∧
    (resolve samplePlatform "old".toList "ab".toList .UTF8 4).buffer = "old".toList :=
  resolve_buffer_too_small samplePlatform "old".toList "ab".toList .UTF8 4
    [67, 58, 92, 97, 98] rfl (by decide)

end MsvcLibX
